import Mathlib

/-!
Verification of the `MobileFormSettings` plugin node (`src/__init__.py`).

The module defines a single class `MobileFormSettings` with:
  a classmethod `INPUT_TYPES` returning a schema dictionary,
  class attributes `RETURN_TYPES`, `FUNCTION`, `CATEGORY`, `OUTPUT_NODE`,
  a method `store` returning an empty dict,
  a classmethod `IS_CHANGED` returning `float("nan")`,
plus two module-level mapping tables and a `WEB_DIRECTORY` constant.

Python floats are modelled by `PyFloat`, with the IEEE-754 equality
semantics that Python's `==` exposes: NaN compares unequal to everything,
including itself.
-/

/-- A Python float, as far as this module uses one: either the NaN produced
by `float("nan")` or an ordinary finite value. -/
inductive PyFloat where
  | nan : PyFloat
  | finite (q : ℚ) : PyFloat
deriving DecidableEq, Repr

/-- Python's `==` on floats (IEEE-754 equality): NaN is unequal to every
float, itself included; finite values compare by value. -/
def pyFloatEq : PyFloat → PyFloat → Bool
  | .nan, _ => false
  | _, .nan => false
  | .finite a, .finite b => a = b

/-- The options dictionary attached to the `settings_json` field in
`INPUT_TYPES`. -/
structure FieldOptions where
  default : String
  multiline : Bool
  dynamicPrompts : Bool
deriving DecidableEq, Repr

/-- The schema dictionary returned by `INPUT_TYPES`: a `required` section and
an `optional` section, each a list of `(field name, type tag, options)`. -/
structure InputSchema where
  required : List (String × String × FieldOptions)
  optional : List (String × String × FieldOptions)
deriving DecidableEq, Repr

/-- The result of `store`: a Python dict, empty in this module; modelled as an
association list.  `Except` records whether the call raised. -/
abbrev StoreResult := List (String × String)

/-- The node's implicit instance state: it holds nothing but the payload the
host manages; the class defines no instance attributes of its own. -/
structure NodeState where
  payload : String
deriving DecidableEq, Repr

namespace MobileFormSettings

/-- Default of the `settings_json` field declared inside `INPUT_TYPES`
(`"default": "{}"` in the source). -/
def schema_field_default : String := "\x7b\x7d"

/-- `INPUT_TYPES`: one required field `settings_json` of type `STRING` with
default `"{}"`, `multiline: True`, `dynamicPrompts: False`; an empty
`optional` section. -/
def INPUT_TYPES : InputSchema :=
  { required :=
      [("settings_json", "STRING",
        { default := schema_field_default
          multiline := true
          dynamicPrompts := false })]
    optional := [] }

/-- Class attribute `RETURN_TYPES = ()`. -/
def RETURN_TYPES : List String := []

/-- Class attribute `FUNCTION = "store"`. -/
def FUNCTION : String := "store"

/-- Class attribute `CATEGORY = "MobileForm"`. -/
def CATEGORY : String := "MobileForm"

/-- Class attribute `OUTPUT_NODE = True`. -/
def OUTPUT_NODE : Bool := true

/-- Default argument `settings_json="{}"` of `store`. -/
def store_default : String := "\x7b\x7d"

/-- `store(self, settings_json="{}")`: the body is `return {}` — it raises
nothing and returns the empty dict. -/
def store (settings_json : String := store_default) :
    Except String StoreResult :=
  .ok []

/-- State-passing form of the `store` method: the body reads and writes no
attribute of `self`, so the instance state passes through unchanged. -/
def store_st (st : NodeState) (settings_json : String := store_default) :
    NodeState × Except String StoreResult :=
  (st, store settings_json)

/-- Default argument `settings_json="{}"` of `IS_CHANGED`. -/
def IS_CHANGED_default : String := "\x7b\x7d"

/-- `IS_CHANGED(cls, settings_json="{}")`: the body is
`return float("nan")`. -/
def IS_CHANGED (settings_json : String := IS_CHANGED_default) : PyFloat :=
  .nan

/-- The methods the class body actually defines, in source order. -/
def defined_methods : List String := ["INPUT_TYPES", "store", "IS_CHANGED"]

/-- Host-side dispatch of the declared action name to the method it denotes:
only `"store"` resolves on this class's executable action. -/
def dispatch (name : String) (st : NodeState) (arg : String) :
    Option (NodeState × Except String StoreResult) :=
  if name = "store" then some (store_st st arg) else none

end MobileFormSettings

/-- The node classes this module defines. -/
inductive NodeClass where
  | MobileFormSettings
deriving DecidableEq, Repr

/-- `NODE_CLASS_MAPPINGS = {"MobileFormSettings": MobileFormSettings}`. -/
def NODE_CLASS_MAPPINGS : List (String × NodeClass) :=
  [("MobileFormSettings", NodeClass.MobileFormSettings)]

/-- `NODE_DISPLAY_NAME_MAPPINGS = {"MobileFormSettings": "Mobile Form Settings"}`. -/
def NODE_DISPLAY_NAME_MAPPINGS : List (String × String) :=
  [("MobileFormSettings", "Mobile Form Settings")]

/-- `WEB_DIRECTORY = "./web"`. -/
def WEB_DIRECTORY : String := "./web"

/-- Claim C1: for every input string `s`, `IS_CHANGED s` returns the same
not-a-number sentinel, independent of `s` — in particular for the empty
string, the default string, or any large string. -/
theorem claim_C1_is_changed_constant_nan :
    ∀ s : String, MobileFormSettings.IS_CHANGED s = PyFloat.nan := by
  intro s
  rfl

/-- Claim C2: `INPUT_TYPES` returns exactly one required field, named
`settings_json`, of type `STRING`, with default `"{}"`, multiline, and with
`dynamicPrompts` disabled. -/
theorem claim_C2_input_types_schema :
    MobileFormSettings.INPUT_TYPES.required =
      [("settings_json", "STRING",
        { default := "\x7b\x7d"
          multiline := true
          dynamicPrompts := false : FieldOptions })] := by
  rfl

/-- Claim C3: for every input string `s`, `store s` raises no error and
returns the empty result. -/
theorem claim_C3_store_total_empty :
    ∀ s : String, MobileFormSettings.store s = Except.ok ([] : StoreResult) := by
  intro s
  rfl

/-- Claim C4: the plugin registration table has exactly one entry, keyed
`"MobileFormSettings"`, mapping to the `MobileFormSettings` node class. -/
theorem claim_C4_class_mapping :
    NODE_CLASS_MAPPINGS = [("MobileFormSettings", NodeClass.MobileFormSettings)] := by
  rfl

/-- Claim C5: the display-name table has exactly one entry, keyed
`"MobileFormSettings"`, with value `"Mobile Form Settings"`. -/
theorem claim_C5_display_name_mapping :
    NODE_DISPLAY_NAME_MAPPINGS = [("MobileFormSettings", "Mobile Form Settings")] := by
  rfl

/-- Claim C6: for every input string `s`, the value `IS_CHANGED s` is not
equal to itself under Python float equality (NaN self-inequality), which is
what makes the host treat the node as always changed. -/
theorem claim_C6_nan_self_inequality :
    ∀ s : String,
      pyFloatEq (MobileFormSettings.IS_CHANGED s) (MobileFormSettings.IS_CHANGED s)
        = false := by
  intro s
  rfl

/-- Claim C7: the schema returned by `INPUT_TYPES` declares no optional
fields. -/
theorem claim_C7_no_optional_fields :
    MobileFormSettings.INPUT_TYPES.optional = [] := by
  rfl

/-- Claim C8: for every input string `s` and every node state, `store` leaves
the state unchanged and produces no output: it is a pure no-op. -/
theorem claim_C8_store_no_side_effects :
    ∀ (st : NodeState) (s : String),
      (MobileFormSettings.store_st st s).1 = st ∧
      (MobileFormSettings.store_st st s).2 = Except.ok ([] : StoreResult) := by
  intro st s
  exact ⟨rfl, rfl⟩

/-- Claim C9: the default arguments of `store` and `IS_CHANGED` both equal the
default declared for `settings_json` in the schema, so calling either without
an argument behaves identically to calling it with the schema's default. -/
theorem claim_C9_defaults_agree :
    MobileFormSettings.store_default = MobileFormSettings.schema_field_default ∧
    MobileFormSettings.IS_CHANGED_default = MobileFormSettings.schema_field_default ∧
    MobileFormSettings.store MobileFormSettings.store_default
      = MobileFormSettings.store MobileFormSettings.schema_field_default ∧
    MobileFormSettings.IS_CHANGED MobileFormSettings.IS_CHANGED_default
      = MobileFormSettings.IS_CHANGED MobileFormSettings.schema_field_default := by
  exact ⟨rfl, rfl, rfl, rfl⟩

/-- Claim C10: the class declares itself an output node (`OUTPUT_NODE` true)
with zero output types (`RETURN_TYPES` empty) and names `"store"` — a method
the class actually defines, on which dispatch resolves — as its action. -/
theorem claim_C10_output_node_declaration :
    MobileFormSettings.OUTPUT_NODE = true ∧
    MobileFormSettings.RETURN_TYPES = [] ∧
    MobileFormSettings.FUNCTION = "store" ∧
    MobileFormSettings.FUNCTION ∈ MobileFormSettings.defined_methods ∧
    (∀ (st : NodeState) (s : String),
      MobileFormSettings.dispatch MobileFormSettings.FUNCTION st s
        = some (MobileFormSettings.store_st st s)) := by
  refine ⟨rfl, rfl, rfl, by decide, ?_⟩
  intro st s
  rfl
